import Mathlib

/-!
Verification development for the rule-based unit-test generation scripts in
`ai-unit-testing-multiLang` (extract_functions.py, generate_scenarios.py,
generate_unit_tests.py, coverage_analyzer.py, language_detector.py,
language_test_generators.py).

Embedding conventions.
* Python source strings that the scripts feed to `ast.parse` are represented
  by the parse outcome: `Option PyModule`, where `none` stands for a string
  that raises `SyntaxError` and `some m` for a string parsing to module `m`.
  The analyses only inspect the AST, never the raw text, so this is the
  natural interface boundary.
* Expressions are kept at the granularity the scripts observe: the scripts
  only ask `isinstance` questions about `Constant`/`List`/`Dict`/`Tuple`/
  `Name`/`Call` and immediately `ast.unparse` sub-expressions to text, so
  `PyExpr` carries that text directly.
* Statement annotations (`arg.annotation`, `FunctionDef.returns`) are carried
  as their `ast.unparse` text (`Option String`, `none` for absent).
* Fallible Python code (uncaught exceptions) is modelled with
  `Except String`; the error string names the Python exception.
* `str.lower`/`str.capitalize`/`str.title` are modelled for ASCII text,
  which is what the generated identifiers and templates consist of.
* Numeric percentages use exact rationals (`ℚ`); Python's binary floating
  point is idealised away, and `round(x, 2)` is modelled exactly, including
  its round-half-to-even behaviour.
-/

/-- Python string containment, `needle in hay` (true for the empty needle,
just as in Python). -/
def strContains (hay needle : String) : Bool :=
  (List.range (hay.data.length + 1)).any (fun i => needle.data.isPrefixOf (hay.data.drop i))

/-- Python `str.lower` for ASCII text. -/
def pyLower (s : String) : String :=
  String.mk (s.data.map Char.toLower)

/-- Replace every non-overlapping occurrence of `pat` in the list, scanning
left to right (fuel-driven so that it computes by kernel reduction; fuel one
per examined character suffices). -/
def replaceFuel (pat rep : List Char) : Nat → List Char → List Char
  | _, [] => []
  | 0, l => l
  | fuel + 1, c :: rest =>
    if pat.isPrefixOf (c :: rest) then
      rep ++ replaceFuel pat rep fuel ((c :: rest).drop pat.length)
    else c :: replaceFuel pat rep fuel rest

/-- Python `s.replace(pat, rep)` for a non-empty `pat` (the scripts only
replace the literal substrings `"error"`, `"_"`, `" "`, `"test_"` and the
`\x7bmodule\x7d`-style placeholders, all non-empty). -/
def pyReplace (s pat rep : String) : String :=
  String.mk (replaceFuel pat.data rep.data s.data.length s.data)

/-- Formal argument of a Python function: `arg.arg` and the unparsed
annotation text (`none` when the argument is unannotated). -/
structure PyArg where
  arg : String
  ann : Option String
deriving DecidableEq, Repr

/-- The expression shapes the scripts distinguish.  `constant tyName`
records `type(node.value).__name__` for an `ast.Constant`; `callE funcText`
records `ast.unparse(node.func)` for an `ast.Call`; `nameE id` records the
identifier of an `ast.Name`.  Every other expression is `otherE`. -/
inductive PyExpr where
  | constant (tyName : String)
  | listE
  | dictE
  | tupleE
  | nameE (id : String)
  | callE (funcText : String)
  | otherE
deriving DecidableEq, Repr

/-- Python statements at the granularity the scripts observe.  Bodies are
statement lists; `tryStmt` keeps its `ExceptHandler` clauses as separate
`exceptHandler` nodes so that the breadth-first `ast.walk` order over
statements is preserved.  `otherStmt` covers every remaining statement kind
(assignments, `with`, `pass`, expression statements, ...) together with the
statement blocks nested inside it. -/
inductive PyStmt where
  | functionDef (isAsync : Bool) (name : String) (args : List PyArg)
      (returns : Option String) (body : List PyStmt)
  | classDef (name : String) (body : List PyStmt)
  | ifStmt (body orelse : List PyStmt)
  | forStmt (body orelse : List PyStmt)
  | whileStmt (body orelse : List PyStmt)
  | tryStmt (body handlers orelse finalbody : List PyStmt)
  | exceptHandler (body : List PyStmt)
  | raiseStmt (exc : Option PyExpr)
  | returnStmt (value : Option PyExpr)
  | otherStmt (children : List PyStmt)
deriving Repr

/-- An `ast.Module`: its statement body. -/
structure PyModule where
  body : List PyStmt
deriving Repr

mutual

/-- Number of statement nodes in a statement subtree. -/
def PyStmt.size : PyStmt → Nat
  | .functionDef _ _ _ _ body => 1 + PyStmt.sizeList body
  | .classDef _ body => 1 + PyStmt.sizeList body
  | .ifStmt body orelse => 1 + PyStmt.sizeList body + PyStmt.sizeList orelse
  | .forStmt body orelse => 1 + PyStmt.sizeList body + PyStmt.sizeList orelse
  | .whileStmt body orelse => 1 + PyStmt.sizeList body + PyStmt.sizeList orelse
  | .tryStmt body handlers orelse finalbody =>
      1 + PyStmt.sizeList body + PyStmt.sizeList handlers +
        PyStmt.sizeList orelse + PyStmt.sizeList finalbody
  | .exceptHandler body => 1 + PyStmt.sizeList body
  | .raiseStmt _ => 1
  | .returnStmt _ => 1
  | .otherStmt children => 1 + PyStmt.sizeList children

/-- Total number of statement nodes in a list of statement subtrees. -/
def PyStmt.sizeList : List PyStmt → Nat
  | [] => 0
  | s :: rest => PyStmt.size s + PyStmt.sizeList rest

end

/-- Direct statement children of a statement, in `ast.iter_child_nodes`
field order (restricted to statements/handlers). -/
def PyStmt.children : PyStmt → List PyStmt
  | .functionDef _ _ _ _ body => body
  | .classDef _ body => body
  | .ifStmt body orelse => body ++ orelse
  | .forStmt body orelse => body ++ orelse
  | .whileStmt body orelse => body ++ orelse
  | .tryStmt body handlers orelse finalbody => body ++ handlers ++ orelse ++ finalbody
  | .exceptHandler body => body
  | .raiseStmt _ => []
  | .returnStmt _ => []
  | .otherStmt children => children

theorem PyStmt.sizeList_nil : PyStmt.sizeList [] = 0 := rfl

theorem PyStmt.sizeList_cons (s : PyStmt) (rest : List PyStmt) :
    PyStmt.sizeList (s :: rest) = PyStmt.size s + PyStmt.sizeList rest := rfl

theorem PyStmt.sizeList_append (a b : List PyStmt) :
    PyStmt.sizeList (a ++ b) = PyStmt.sizeList a + PyStmt.sizeList b := by
  induction a with
  | nil => simp [PyStmt.sizeList_nil]
  | cons s t ih => simp [PyStmt.sizeList_cons, ih]; omega

theorem PyStmt.sizeList_children_lt (s : PyStmt) :
    PyStmt.sizeList s.children < s.size := by
  cases s <;>
    (simp [PyStmt.children, PyStmt.size, PyStmt.sizeList_append, PyStmt.sizeList_nil];
      try omega)

/-- Breadth-first traversal of a queue of statement subtrees, driven by
explicit fuel: the core of `ast.walk`.  Popping the head emits it and
enqueues its children at the back, exactly as `ast.walk`'s `deque` does.
Each node of the queue is popped exactly once, so fuel `PyStmt.sizeList q`
never runs out (`walkFuel_sufficient`). -/
def walkFuel : Nat → List PyStmt → List PyStmt
  | _, [] => []
  | 0, _ :: _ => []
  | fuel + 1, s :: q => s :: walkFuel fuel (q ++ s.children)

/-- The `ast.walk` breadth-first order on a queue of statement subtrees.
Restricted to statements this yields the same relative order as CPython's
full-node walk, because statements only occur as children of
statements/handlers, so their depth and within-depth order agree with the
full node tree. -/
def walkAux (q : List PyStmt) : List PyStmt :=
  walkFuel (PyStmt.sizeList q) q

theorem walkFuel_nil (fuel : Nat) : walkFuel fuel [] = [] := by
  cases fuel <;> rfl

/-- With fuel at least the total node count, more fuel changes nothing, so
`walkAux` satisfies the breadth-first recurrence. -/
theorem walkFuel_sufficient (fuel : Nat) :
    ∀ q : List PyStmt, PyStmt.sizeList q ≤ fuel →
      walkFuel fuel q = walkFuel (PyStmt.sizeList q) q := by
  induction fuel using Nat.strong_induction_on with
  | _ fuel ih =>
    intro q hq
    match fuel, q with
    | fuel, [] => rw [walkFuel_nil, PyStmt.sizeList_nil, walkFuel_nil]
    | 0, s :: q =>
      exfalso
      have := PyStmt.sizeList_children_lt s
      simp [PyStmt.sizeList_cons] at hq
      omega
    | fuel + 1, s :: q =>
      have hs := PyStmt.sizeList_children_lt s
      have hsz : PyStmt.sizeList (q ++ s.children) ≤ fuel := by
        simp [PyStmt.sizeList_cons] at hq
        simp [PyStmt.sizeList_append]
        omega
      have hcons : PyStmt.sizeList (s :: q) = PyStmt.size s + PyStmt.sizeList q :=
        PyStmt.sizeList_cons s q
      have hpos : 1 ≤ PyStmt.size s := by omega
      rw [hcons]
      obtain ⟨k, hk⟩ : ∃ k, PyStmt.size s + PyStmt.sizeList q = k + 1 :=
        ⟨PyStmt.size s + PyStmt.sizeList q - 1, by omega⟩
      rw [hk]
      show s :: walkFuel fuel (q ++ s.children) = s :: walkFuel k (q ++ s.children)
      have h1 : walkFuel fuel (q ++ s.children) = walkFuel (PyStmt.sizeList (q ++ s.children)) (q ++ s.children) :=
        ih fuel (Nat.lt_succ_self fuel) _ hsz
      have h2 : walkFuel k (q ++ s.children) = walkFuel (PyStmt.sizeList (q ++ s.children)) (q ++ s.children) := by
        apply ih k _ _
        · simp [PyStmt.sizeList_append]
          omega
        · omega
      rw [h1, h2]

/-- The breadth-first recurrence for `walkAux`. -/
theorem walkAux_cons (s : PyStmt) (q : List PyStmt) :
    walkAux (s :: q) = s :: walkAux (q ++ s.children) := by
  unfold walkAux
  rw [PyStmt.sizeList_cons]
  have hpos : 1 ≤ PyStmt.size s := by
    have := PyStmt.sizeList_children_lt s
    omega
  obtain ⟨k, hk⟩ : ∃ k, PyStmt.size s + PyStmt.sizeList q = k + 1 :=
    ⟨PyStmt.size s + PyStmt.sizeList q - 1, by omega⟩
  rw [hk]
  show s :: walkFuel k (q ++ s.children) = s :: walkFuel (PyStmt.sizeList (q ++ s.children)) (q ++ s.children)
  rw [walkFuel_sufficient k]
  simp [PyStmt.sizeList_append]
  have := PyStmt.sizeList_children_lt s
  omega

/-- Statements yielded by `ast.walk(tree)` for a module `tree` (the `Module`
node itself, yielded first by CPython, matches none of the scripts'
`isinstance` checks and is dropped). -/
def walkModule (m : PyModule) : List PyStmt :=
  walkAux m.body

/-- Statements yielded by `ast.walk(node)` for a single statement `node`
(the node itself comes first). -/
def walkFrom (s : PyStmt) : List PyStmt :=
  walkAux [s]

/-- A `function_info` dictionary as produced by the extraction scripts, with
the `dict.get` defaults of `ScenarioGenerator.__init__` /
`TestCodeGenerator.__init__` already resolved.  `func_source` is the
`ast.parse` outcome of the stored source text (see the header note); `extras`
stands for any further dictionary entries, which no operation reads. -/
structure FunctionInfo where
  func_name : String := "unknown"
  qualified_name : String
  class_name : Option String := none
  is_async : Bool := false
  func_source : Option PyModule
  extras : List (String × String) := []

/-- A parameter record built by `_extract_parameters`:
`{"name": arg.arg, "annotation": ast.unparse(arg.annotation) or None}`.
The annotation entry is the field `ann` (`none` models Python `None`). -/
structure ParamInfo where
  name : String
  ann : Option String
deriving DecidableEq, Repr

/-- A scenario dictionary, as built by `ScenarioGenerator.generate` and
consumed by the generators and the coverage analyzer (all four keys are
always present there; the consumers' `dict.get` defaults coincide with
reading the field). -/
structure Scenario where
  scenario_name : String
  description : String
  category : String
  test_type : String
deriving DecidableEq, Repr

/-- `ScenarioGenerator._extract_parameters`: parse the stored source, take
`tree.body[0]`, and collect its positional arguments skipping `self`/`cls`.
Every failure path (SyntaxError from `ast.parse`, IndexError on an empty
body, AttributeError when `body[0]` is not a function definition) is caught
by the bare `except` and yields `[]`. -/
def extract_parameters (src : Option PyModule) : List ParamInfo :=
  match src with
  | none => []
  | some m =>
    match m.body with
    | [] => []
    | fn :: _ =>
      match fn with
      | .functionDef _ _ args _ _ =>
          (args.filter (fun a => !(a.arg == "self" || a.arg == "cls"))).map
            (fun a => { name := a.arg, ann := a.ann })
      | _ => []

/-- The body of the `for node in ast.walk(func_node)` loop of
`_infer_return_type`: a `Return` with a truthy `value` yields
`type(value).__name__` for a constant and the literal kind for
list/dict/tuple displays; any other node lets the loop continue. -/
def inferFromReturnValue : PyStmt → Option String
  | .returnStmt (some (.constant tyName)) => some tyName
  | .returnStmt (some .listE) => some "list"
  | .returnStmt (some .dictE) => some "dict"
  | .returnStmt (some .tupleE) => some "tuple"
  | _ => none

/-- `ScenarioGenerator._infer_return_type`: the unparsed `returns` annotation
of `tree.body[0]` when present, otherwise the first hit of
`inferFromReturnValue` in `ast.walk` order; every failure path of the
`try` yields `none`. -/
def infer_return_type (src : Option PyModule) : Option String :=
  match src with
  | none => none
  | some m =>
    match m.body with
    | [] => none
    | fn :: _ =>
      match fn with
      | .functionDef _ _ _ ret _ =>
        match ret with
        | some r => some r
        | none => (walkFrom fn).findSome? inferFromReturnValue
      | _ => none

/-- Whether a statement is an `ast.If`. -/
def PyStmt.isIf : PyStmt → Bool
  | .ifStmt _ _ => true
  | _ => false

/-- Whether a statement is an `ast.For` or `ast.While`. -/
def PyStmt.isLoop : PyStmt → Bool
  | .forStmt _ _ => true
  | .whileStmt _ _ => true
  | _ => false

/-- `ScenarioGenerator._has_conditionals`: an `ast.If` occurs somewhere in
the parsed tree (`false` when parsing failed). -/
def hasConditionals (src : Option PyModule) : Bool :=
  match src with
  | none => false
  | some m => (walkModule m).any PyStmt.isIf

/-- `ScenarioGenerator._has_loops`: an `ast.For` or `ast.While` occurs
somewhere in the parsed tree (`false` when parsing failed). -/
def hasLoops (src : Option PyModule) : Bool :=
  match src with
  | none => false
  | some m => (walkModule m).any PyStmt.isLoop

/-- The name `_check_exceptions` records for one statement: for a `Raise`
with a truthy `exc`, `ast.unparse(exc.func)` when `exc` is a call and the
identifier when it is a bare name; every other raise contributes nothing. -/
def raisedName : PyStmt → Option String
  | .raiseStmt (some (.callE funcText)) => some funcText
  | .raiseStmt (some (.nameE id)) => some id
  | _ => none

/-- `ScenarioGenerator._check_exceptions`: the raised exception names in
`ast.walk` order (`[]` when parsing failed). -/
def check_exceptions (src : Option PyModule) : List String :=
  match src with
  | none => []
  | some m => (walkModule m).filterMap raisedName

/-- The state `ScenarioGenerator.__init__` computes and stores. -/
structure ScenarioGenerator where
  func_name : String
  qualified_name : String
  class_name : Option String
  is_async : Bool
  func_source : Option PyModule
  params : List ParamInfo
  return_type : Option String
  has_conditionals : Bool
  has_loops : Bool
  raises_exceptions : List String

/-- `ScenarioGenerator.__init__` on a `function_info` dictionary. -/
def ScenarioGenerator.init (fi : FunctionInfo) : ScenarioGenerator where
  func_name := fi.func_name
  qualified_name := fi.qualified_name
  class_name := fi.class_name
  is_async := fi.is_async
  func_source := fi.func_source
  params := extract_parameters fi.func_source
  return_type := infer_return_type fi.func_source
  has_conditionals := hasConditionals fi.func_source
  has_loops := hasLoops fi.func_source
  raises_exceptions := check_exceptions fi.func_source

/-- The per-parameter iterations of the edge-case loop in
`ScenarioGenerator.generate`.  For each parameter the code evaluates
`param.get("annotation", "").lower()`; the `"annotation"` key is always
present (set by `_extract_parameters`), so when its value is Python `None`
the call `None.lower()` raises an uncaught `AttributeError`, discarding all
scenarios accumulated so far. -/
def paramEdgeScenarios (fn : String) : List ParamInfo → Except String (List Scenario)
  | [] => .ok []
  | p :: rest =>
    match p.ann with
    | none => .error "AttributeError: 'NoneType' object has no attribute 'lower'"
    | some a =>
      let param_type := pyLower a
      let pname := p.name
      let typeScens : List Scenario :=
        if strContains param_type "int" || strContains param_type "float" then
          [{ scenario_name := s!"test_{pname}_zero",
             description := s!"Test {fn} with {pname} = 0",
             category := "edge_case", test_type := "boundary" },
           { scenario_name := s!"test_{pname}_negative",
             description := s!"Test {fn} with negative {pname}",
             category := "edge_case", test_type := "boundary" }]
        else if strContains param_type "str" then
          [{ scenario_name := s!"test_{pname}_empty_string",
             description := s!"Test {fn} with empty {pname}",
             category := "edge_case", test_type := "boundary" }]
        else if strContains param_type "list" || strContains param_type "tuple" then
          [{ scenario_name := s!"test_{pname}_empty",
             description := s!"Test {fn} with empty {pname}",
             category := "edge_case", test_type := "boundary" }]
        else []
      let noneScen : Scenario :=
        { scenario_name := s!"test_{pname}_none",
          description := s!"Test {fn} with None {pname}",
          category := "edge_case", test_type := "null_check" }
      (fun tail => typeScens ++ [noneScen] ++ tail) <$> paramEdgeScenarios fn rest

/-- `ScenarioGenerator.generate`.  The result is `Except` because the
parameter loop can raise (see `paramEdgeScenarios`).  `if self.params:` is
the recursion's base case; `if self.return_type:` is Python truthiness, so
an empty inferred type string would also be skipped. -/
def ScenarioGenerator.generate (g : ScenarioGenerator) :
    Except String (List Scenario) := do
  let fn := g.func_name
  let happy : Scenario :=
    { scenario_name := "test_normal_execution",
      description := s!"Test {fn} with valid inputs",
      category := "happy_path", test_type := "functional" }
  let pScens ← paramEdgeScenarios fn g.params
  let excScens : List Scenario :=
    if g.raises_exceptions.isEmpty then
      [{ scenario_name := "test_invalid_input",
         description := s!"Test {fn} with invalid input types",
         category := "exception", test_type := "error_handling" }]
    else
      g.raises_exceptions.map (fun exc =>
        let cleaned := pyReplace (pyLower exc) "error" ""
        { scenario_name := s!"test_raises_{cleaned}",
          description := s!"Test {fn} raises {exc}",
          category := "exception", test_type := "error_handling" })
  let retScens : List Scenario :=
    match g.return_type with
    | some rt =>
      if rt == "" then []
      else
        [{ scenario_name := "test_return_type",
           description := s!"Test {fn} returns correct type ({rt})",
           category := "validation", test_type := "return_type" }]
    | none => []
  let condScens : List Scenario :=
    if g.has_conditionals then
      [{ scenario_name := "test_conditional_branches",
         description := s!"Test {fn} conditional logic paths",
         category := "logic", test_type := "branch_coverage" }]
    else []
  let loopScens : List Scenario :=
    if g.has_loops then
      [{ scenario_name := "test_loop_behavior",
         description := s!"Test {fn} loop execution",
         category := "logic", test_type := "iteration" }]
    else []
  return [happy] ++ pScens ++ excScens ++ retScens ++ condScens ++ loopScens

/-- Python dictionary assignment `d[k] = v` on an insertion-ordered
association list: overwrite in place when the key exists, append otherwise. -/
def dictSet {α : Type} : List (String × α) → String → α → List (String × α)
  | [], k, v => [(k, v)]
  | (k0, v0) :: rest, k, v =>
    if k0 == k then (k, v) :: rest else (k0, v0) :: dictSet rest k v

/-- Loop of `generate_scenarios_for_functions`, threading the accumulated
`all_scenarios` dictionary; an exception from `generate` propagates. -/
def generateScenariosLoop :
    List FunctionInfo → List (String × List Scenario) →
      Except String (List (String × List Scenario))
  | [], acc => .ok acc
  | fi :: rest, acc => do
    let scens ← (ScenarioGenerator.init fi).generate
    generateScenariosLoop rest (dictSet acc fi.qualified_name scens)

/-- `generate_scenarios_for_functions`: the `all_scenarios` dictionary,
keyed by qualified name. -/
def generate_scenarios_for_functions (functions : List FunctionInfo) :
    Except String (List (String × List Scenario)) :=
  generateScenariosLoop functions []

/-- Edge-case scenarios for one annotated parameter, as the amended claim
words them: only the first matching annotation family fires (int/float
before str before list/tuple), followed by the unconditional None-check. -/
def specParamScenarios (fn : String) (p : ParamInfo) : List Scenario :=
  match p.ann with
  | none => []
  | some a =>
    let t := pyLower a
    let pname := p.name
    (if strContains t "int" || strContains t "float" then
      [{ scenario_name := s!"test_{pname}_zero",
         description := s!"Test {fn} with {pname} = 0",
         category := "edge_case", test_type := "boundary" },
       { scenario_name := s!"test_{pname}_negative",
         description := s!"Test {fn} with negative {pname}",
         category := "edge_case", test_type := "boundary" }]
    else if strContains t "str" then
      [{ scenario_name := s!"test_{pname}_empty_string",
         description := s!"Test {fn} with empty {pname}",
         category := "edge_case", test_type := "boundary" }]
    else if strContains t "list" || strContains t "tuple" then
      [{ scenario_name := s!"test_{pname}_empty",
         description := s!"Test {fn} with empty {pname}",
         category := "edge_case", test_type := "boundary" }]
    else []) ++
    [{ scenario_name := s!"test_{pname}_none",
       description := s!"Test {fn} with None {pname}",
       category := "edge_case", test_type := "null_check" }]

/-- The full scenario list the amended claim describes, in terms of the
analysis results stored by `__init__`. -/
def specScenarios (g : ScenarioGenerator) : List Scenario :=
  let fn := g.func_name
  [{ scenario_name := "test_normal_execution",
     description := s!"Test {fn} with valid inputs",
     category := "happy_path", test_type := "functional" }] ++
  (g.params.map (specParamScenarios fn)).flatten ++
  (if g.raises_exceptions.isEmpty then
    [{ scenario_name := "test_invalid_input",
       description := s!"Test {fn} with invalid input types",
       category := "exception", test_type := "error_handling" }]
  else
    g.raises_exceptions.map (fun exc =>
      let cleaned := pyReplace (pyLower exc) "error" ""
      { scenario_name := s!"test_raises_{cleaned}",
        description := s!"Test {fn} raises {exc}",
        category := "exception", test_type := "error_handling" })) ++
  (match g.return_type with
   | some rt =>
     if rt == "" then []
     else
       [{ scenario_name := "test_return_type",
          description := s!"Test {fn} returns correct type ({rt})",
          category := "validation", test_type := "return_type" }]
   | none => []) ++
  (if g.has_conditionals then
    [{ scenario_name := "test_conditional_branches",
       description := s!"Test {fn} conditional logic paths",
       category := "logic", test_type := "branch_coverage" }]
  else []) ++
  (if g.has_loops then
    [{ scenario_name := "test_loop_behavior",
       description := s!"Test {fn} loop execution",
       category := "logic", test_type := "iteration" }]
  else [])

theorem paramEdgeScenarios_ok (fn : String) (ps : List ParamInfo)
    (h : ∀ p ∈ ps, p.ann ≠ none) :
    paramEdgeScenarios fn ps = .ok (ps.map (specParamScenarios fn)).flatten := by
  induction ps with
  | nil => rfl
  | cons p rest ih =>
    have hp : p.ann ≠ none := h p (List.mem_cons_self p rest)
    match ha : p.ann with
    | none => exact absurd ha hp
    | some a =>
      have ihr := ih (fun q hq => h q (List.mem_cons_of_mem p hq))
      simp [paramEdgeScenarios, ha, ihr, specParamScenarios, List.append_assoc]

theorem generate_eq_spec (g : ScenarioGenerator)
    (h : ∀ p ∈ g.params, p.ann ≠ none) :
    g.generate = .ok (specScenarios g) := by
  simp [ScenarioGenerator.generate, specScenarios,
    paramEdgeScenarios_ok g.func_name g.params h, Except.bind, List.append_assoc]

/-- C1: a `function_info` whose `func_source` does not parse makes every
analysis helper fall back to its empty result, and `generate` then returns
exactly the happy-path scenario followed by the generic invalid-input
exception scenario. -/
theorem claim1_unparseable_source_falls_back (fi : FunctionInfo)
    (h : fi.func_source = none) :
    extract_parameters fi.func_source = [] ∧
    infer_return_type fi.func_source = none ∧
    hasConditionals fi.func_source = false ∧
    hasLoops fi.func_source = false ∧
    check_exceptions fi.func_source = [] ∧
    (ScenarioGenerator.init fi).generate = .ok
      [{ scenario_name := "test_normal_execution",
         description := "Test " ++ fi.func_name ++ " with valid inputs",
         category := "happy_path", test_type := "functional" },
       { scenario_name := "test_invalid_input",
         description := "Test " ++ fi.func_name ++ " with invalid input types",
         category := "exception", test_type := "error_handling" }] := by
  have hg : ScenarioGenerator.init fi =
      ⟨fi.func_name, fi.qualified_name, fi.class_name, fi.is_async, none,
        [], none, false, false, []⟩ := by
    unfold ScenarioGenerator.init
    rw [h]
    rfl
  rw [h, hg]
  refine ⟨rfl, rfl, rfl, rfl, rfl, ?_⟩
  simp [ScenarioGenerator.generate, paramEdgeScenarios, toString, String.append_assoc]

def c1WitnessFi : FunctionInfo :=
  { func_name := "f", qualified_name := "f", func_source := none }

theorem claim1_witness :
    c1WitnessFi.func_source = none ∧
    (ScenarioGenerator.init c1WitnessFi).generate = .ok
      [{ scenario_name := "test_normal_execution",
         description := "Test f with valid inputs",
         category := "happy_path", test_type := "functional" },
       { scenario_name := "test_invalid_input",
         description := "Test f with invalid input types",
         category := "exception", test_type := "error_handling" }] := by
  have h := claim1_unparseable_source_falls_back c1WitnessFi rfl
  exact ⟨rfl, h.2.2.2.2.2⟩

def c8FunctionInfo : FunctionInfo :=
  { func_name := "f", qualified_name := "f",
    func_source := some { body := [ .functionDef false "f" [⟨"x", none⟩] none
      [ .returnStmt (some (.nameE "x")) ] ] } }

/-- C8: evaluating the code at the failing input `def f(x): return x` — the
parameter `x` carries no annotation, so `generate` raises `AttributeError`
(`None.lower()`) instead of returning the claimed scenario list. -/
theorem claim8_generate_raises_on_unannotated_param :
    (ScenarioGenerator.init c8FunctionInfo).generate =
      .error "AttributeError: 'NoneType' object has no attribute 'lower'" := by
  rfl

def c2CexFi : FunctionInfo :=
  { func_name := "f", qualified_name := "f",
    func_source := some { body := [ .functionDef false "f" [⟨"a", some "List[int]"⟩] none
      [ .otherStmt [] ] ] } }

/-- C2 counterexample: for `def f(a: List[int]): pass` the annotation
contains both `"int"` and `"list"`, yet `generate` emits only the zero and
negative boundary scenarios and no empty-collection scenario `test_a_empty`,
because the `elif` chain stops at the first match — refuting the claim's
independent per-family bullets. -/
theorem claim2_counterexample :
    strContains (pyLower "List[int]") "list" = true ∧
    (ScenarioGenerator.init c2CexFi).generate = .ok
      [{ scenario_name := "test_normal_execution",
         description := "Test f with valid inputs",
         category := "happy_path", test_type := "functional" },
       { scenario_name := "test_a_zero", description := "Test f with a = 0",
         category := "edge_case", test_type := "boundary" },
       { scenario_name := "test_a_negative", description := "Test f with negative a",
         category := "edge_case", test_type := "boundary" },
       { scenario_name := "test_a_none", description := "Test f with None a",
         category := "edge_case", test_type := "null_check" },
       { scenario_name := "test_invalid_input",
         description := "Test f with invalid input types",
         category := "exception", test_type := "error_handling" }] ∧
    (((ScenarioGenerator.init c2CexFi).generate.toOption.getD []).all
      (fun s => !(s.scenario_name == "test_a_empty"))) = true := by
  refine ⟨rfl, rfl, rfl⟩

/-- C2 (amended): for every function whose extracted parameters all carry
annotations, `generate` succeeds and returns exactly the scenario list
described by the amended claim (`specScenarios`): the happy-path scenario,
then per parameter the first matching annotation family's boundary scenarios
followed by the None-check, then one `test_raises_*` scenario per raise
statement with an extractable exception name (generic `test_invalid_input`
exactly when there are none), then `test_return_type` iff a non-empty return
type was inferred, then the conditional and loop scenarios iff the body
contains an `if`, respectively a `for`/`while`. -/
theorem claim2_amended_classification (fi : FunctionInfo)
    (h : ∀ p ∈ extract_parameters fi.func_source, p.ann ≠ none) :
    (ScenarioGenerator.init fi).generate =
      .ok (specScenarios (ScenarioGenerator.init fi)) :=
  generate_eq_spec _ h

def c2WitnessFi : FunctionInfo :=
  { func_name := "calculate_sum", qualified_name := "calculate_sum",
    func_source := some { body := [ .functionDef false "calculate_sum"
      [⟨"a", some "int"⟩, ⟨"b", some "int"⟩] (some "int")
      [ .ifStmt [ .raiseStmt (some (.callE "ValueError")) ] [],
        .returnStmt (some .otherE) ] ] } }

theorem claim2_witness :
    (∀ p ∈ extract_parameters c2WitnessFi.func_source, p.ann ≠ none) ∧
    (ScenarioGenerator.init c2WitnessFi).generate =
      .ok (specScenarios (ScenarioGenerator.init c2WitnessFi)) := by
  refine ⟨by decide, claim2_amended_classification c2WitnessFi (by decide)⟩

/-- The entries of a `function_info` dictionary that scenario generation
reads: the function name, the qualified name used as the result key, and the
source (its parse outcome). -/
def scenarioInputs (fi : FunctionInfo) : String × String × Option PyModule :=
  (fi.func_name, fi.qualified_name, fi.func_source)

theorem generate_reads_only (a b : ScenarioGenerator)
    (h1 : a.func_name = b.func_name) (h2 : a.params = b.params)
    (h3 : a.raises_exceptions = b.raises_exceptions)
    (h4 : a.return_type = b.return_type)
    (h5 : a.has_conditionals = b.has_conditionals)
    (h6 : a.has_loops = b.has_loops) :
    a.generate = b.generate := by
  cases a
  cases b
  dsimp at h1 h2 h3 h4 h5 h6
  subst h1 h2 h3 h4 h5 h6
  rfl

theorem generate_init_only_reads (fi1 fi2 : FunctionInfo)
    (hn : fi1.func_name = fi2.func_name) (hs : fi1.func_source = fi2.func_source) :
    (ScenarioGenerator.init fi1).generate = (ScenarioGenerator.init fi2).generate := by
  apply generate_reads_only <;> simp [ScenarioGenerator.init, hn, hs]

theorem scenariosLoop_congr :
    ∀ (fs1 fs2 : List FunctionInfo) (acc : List (String × List Scenario)),
      fs1.map scenarioInputs = fs2.map scenarioInputs →
      generateScenariosLoop fs1 acc = generateScenariosLoop fs2 acc := by
  intro fs1
  induction fs1 with
  | nil =>
    intro fs2 acc h
    cases fs2 with
    | nil => rfl
    | cons b bs => exact absurd h (by simp)
  | cons fi rest ih =>
    intro fs2 acc h
    cases fs2 with
    | nil => exact absurd h (by simp)
    | cons fi2 rest2 =>
      simp only [List.map_cons] at h
      injection h with h1 hrest
      simp only [scenarioInputs, Prod.mk.injEq] at h1
      obtain ⟨hn, hq, hs⟩ := h1
      have hgen := generate_init_only_reads fi fi2 hn hs
      show (do
          let scens ← (ScenarioGenerator.init fi).generate
          generateScenariosLoop rest (dictSet acc fi.qualified_name scens)) = (do
          let scens ← (ScenarioGenerator.init fi2).generate
          generateScenariosLoop rest2 (dictSet acc fi2.qualified_name scens))
      rw [hgen, hq]
      cases (ScenarioGenerator.init fi2).generate with
      | error e => rfl
      | ok l => exact ih rest2 _ hrest

/-- C4: scenario generation is a pure, deterministic transformation — the
result of `generate_scenarios_for_functions` depends only on the
`func_name`, `qualified_name` and `func_source` entries of the input
dictionaries (in particular, equal inputs give equal outputs, and no state
outside the inputs is consulted). -/
theorem claim4_deterministic_pure (fs1 fs2 : List FunctionInfo)
    (h : fs1.map scenarioInputs = fs2.map scenarioInputs) :
    generate_scenarios_for_functions fs1 = generate_scenarios_for_functions fs2 :=
  scenariosLoop_congr fs1 fs2 [] h

/-- A function record built by `FunctionExtractor._add_function`.  The
`func_source` entry of the Python dictionary is
`ast.get_source_segment(source, node)`, the original text slice of the
node; it is not reconstructible from the AST alone and is carried here as
the node itself (`src_node`). -/
structure FuncRecord where
  func_name : String
  qualified_name : String
  class_name : Option String
  is_async : Bool
  src_node : PyStmt
deriving Repr

mutual

/-- `FunctionExtractor.visit` on one statement, carrying the current
`class_stack`: function definitions record themselves (`_add_function`,
using the top of the stack) and then `generic_visit` their body with the
stack unchanged; class definitions push their name around the recursive
visit; every other statement is handled by `generic_visit`, which recurses
into its child statement blocks in field order. -/
def visitStmt (stack : List String) : PyStmt → List FuncRecord
  | .functionDef isAsync name args returns body =>
    { func_name := name,
      qualified_name :=
        match stack.getLast? with
        | some c => c ++ "." ++ name
        | none => name,
      class_name := stack.getLast?,
      is_async := isAsync,
      src_node := .functionDef isAsync name args returns body } :: visitStmtList stack body
  | .classDef name body => visitStmtList (stack ++ [name]) body
  | .ifStmt body orelse => visitStmtList stack body ++ visitStmtList stack orelse
  | .forStmt body orelse => visitStmtList stack body ++ visitStmtList stack orelse
  | .whileStmt body orelse => visitStmtList stack body ++ visitStmtList stack orelse
  | .tryStmt body handlers orelse finalbody =>
    visitStmtList stack body ++ visitStmtList stack handlers ++
      visitStmtList stack orelse ++ visitStmtList stack finalbody
  | .exceptHandler body => visitStmtList stack body
  | .raiseStmt _ => []
  | .returnStmt _ => []
  | .otherStmt children => visitStmtList stack children

/-- `generic_visit` over a statement list. -/
def visitStmtList (stack : List String) : List PyStmt → List FuncRecord
  | [] => []
  | s :: rest => visitStmt stack s ++ visitStmtList stack rest

end

/-- `FunctionExtractor(source).visit(tree)` for a parsed module: the
collected `functions` list. -/
def FunctionExtractor.run (m : PyModule) : List FuncRecord :=
  visitStmtList [] m.body

/-- `get_functions_from_file`: `ast.parse` is not guarded, so a source that
does not parse raises `SyntaxError` to the caller. -/
def get_functions_from_file (parse : Option PyModule) : Except String (List FuncRecord) :=
  match parse with
  | none => .error "SyntaxError"
  | some m => .ok (FunctionExtractor.run m)

mutual

/-- Specification-side traversal, written from the claim's wording: walk the
statement tree in pre-order carrying the nearest enclosing class name; every
function definition (sync or async, methods and nested functions alike)
contributes one record whose `func_name` is the definition's name, whose
`is_async` flag marks async definitions, and whose `qualified_name` is
`Class.name` inside a class and the bare name otherwise. -/
def specVisit (encl : Option String) : PyStmt → List FuncRecord
  | .functionDef isAsync name args returns body =>
    { func_name := name,
      qualified_name :=
        match encl with
        | some c => c ++ "." ++ name
        | none => name,
      class_name := encl,
      is_async := isAsync,
      src_node := .functionDef isAsync name args returns body } :: specVisitList encl body
  | .classDef name body => specVisitList (some name) body
  | .ifStmt body orelse => specVisitList encl body ++ specVisitList encl orelse
  | .forStmt body orelse => specVisitList encl body ++ specVisitList encl orelse
  | .whileStmt body orelse => specVisitList encl body ++ specVisitList encl orelse
  | .tryStmt body handlers orelse finalbody =>
    specVisitList encl body ++ specVisitList encl handlers ++
      specVisitList encl orelse ++ specVisitList encl finalbody
  | .exceptHandler body => specVisitList encl body
  | .raiseStmt _ => []
  | .returnStmt _ => []
  | .otherStmt children => specVisitList encl children

/-- Specification-side traversal of a statement list. -/
def specVisitList (encl : Option String) : List PyStmt → List FuncRecord
  | [] => []
  | s :: rest => specVisit encl s ++ specVisitList encl rest

end

/-- The function records the claim describes for a parsed module. -/
def specFunctions (m : PyModule) : List FuncRecord :=
  specVisitList none m.body

mutual

theorem visitStmt_eq_spec (stack : List String) (s : PyStmt) :
    visitStmt stack s = specVisit stack.getLast? s := by
  match s with
  | .functionDef isAsync name args returns body =>
    simp only [visitStmt, specVisit]
    rw [visitStmtList_eq_spec stack body]
  | .classDef name body =>
    simp only [visitStmt, specVisit]
    rw [visitStmtList_eq_spec (stack ++ [name]) body, List.getLast?_concat]
  | .ifStmt body orelse =>
    simp only [visitStmt, specVisit]
    rw [visitStmtList_eq_spec stack body, visitStmtList_eq_spec stack orelse]
  | .forStmt body orelse =>
    simp only [visitStmt, specVisit]
    rw [visitStmtList_eq_spec stack body, visitStmtList_eq_spec stack orelse]
  | .whileStmt body orelse =>
    simp only [visitStmt, specVisit]
    rw [visitStmtList_eq_spec stack body, visitStmtList_eq_spec stack orelse]
  | .tryStmt body handlers orelse finalbody =>
    simp only [visitStmt, specVisit]
    rw [visitStmtList_eq_spec stack body, visitStmtList_eq_spec stack handlers,
      visitStmtList_eq_spec stack orelse, visitStmtList_eq_spec stack finalbody]
  | .exceptHandler body =>
    simp only [visitStmt, specVisit]
    rw [visitStmtList_eq_spec stack body]
  | .raiseStmt e => rfl
  | .returnStmt e => rfl
  | .otherStmt children =>
    simp only [visitStmt, specVisit]
    rw [visitStmtList_eq_spec stack children]

theorem visitStmtList_eq_spec (stack : List String) (l : List PyStmt) :
    visitStmtList stack l = specVisitList stack.getLast? l := by
  match l with
  | [] => rfl
  | s :: rest =>
    simp only [visitStmtList, specVisitList]
    rw [visitStmt_eq_spec stack s, visitStmtList_eq_spec stack rest]

end

/-- C6: for every syntactically valid source, `get_functions_from_file`
returns exactly one record per function definition in traversal order, with
`func_name` the definition's name, `is_async` true exactly for async
definitions, and `qualified_name` equal to `Class.name` for definitions
inside a class (nearest enclosing class) and the bare name otherwise —
formalised as equality with the specification-side traversal
`specFunctions`. -/
theorem claim6_extractor_matches_spec (m : PyModule) :
    get_functions_from_file (some m) = .ok (specFunctions m) := by
  show (Except.ok (FunctionExtractor.run m) : Except String (List FuncRecord)) =
    Except.ok (specFunctions m)
  rw [FunctionExtractor.run, specFunctions, visitStmtList_eq_spec [] m.body]
  rfl

/-- A `LanguageConfig` from `language_detector.py` (all six constructor
fields; only `extensions` and `import_style` are consulted by the modelled
operations). -/
structure LanguageConfig where
  name : String
  extensions : List String
  test_framework : String
  test_file_prefix : String
  import_style : String
  comment_style : String
deriving Repr

/-- `LANGUAGE_CONFIGS`, in dictionary insertion order. -/
def LANGUAGE_CONFIGS : List (String × LanguageConfig) :=
  [ ("python",
     { name := "Python", extensions := [".py"], test_framework := "pytest",
       test_file_prefix := "test_",
       import_style := "from \x7bmodule\x7d import \x7bfunction\x7d",
       comment_style := "\"\"\"" }),
    ("javascript",
     { name := "JavaScript", extensions := [".js", ".jsx"], test_framework := "jest",
       test_file_prefix := "",
       import_style := "const \x7b\x7b \x7bfunction\x7d \x7d\x7d = require('./\x7bmodule\x7d');",
       comment_style := "//" }),
    ("typescript",
     { name := "TypeScript", extensions := [".ts", ".tsx"], test_framework := "jest",
       test_file_prefix := "",
       import_style := "import \x7b\x7b \x7bfunction\x7d \x7d\x7d from './\x7bmodule\x7d';",
       comment_style := "//" }),
    ("java",
     { name := "Java", extensions := [".java"], test_framework := "junit",
       test_file_prefix := "",
       import_style := "import \x7bpackage\x7d.\x7bfunction\x7d;",
       comment_style := "//" }),
    ("csharp",
     { name := "C#", extensions := [".cs"], test_framework := "nunit",
       test_file_prefix := "",
       import_style := "using \x7bnamespace\x7d;",
       comment_style := "//" }),
    ("go",
     { name := "Go", extensions := [".go"], test_framework := "testing",
       test_file_prefix := "",
       import_style := "import \"\x7bmodule\x7d\"",
       comment_style := "//" }),
    ("ruby",
     { name := "Ruby", extensions := [".rb"], test_framework := "rspec",
       test_file_prefix := "",
       import_style := "require_relative '\x7bmodule\x7d'",
       comment_style := "#" }),
    ("php",
     { name := "PHP", extensions := [".php"], test_framework := "phpunit",
       test_file_prefix := "",
       import_style := "use \x7bnamespace\x7d\\\x7bfunction\x7d;",
       comment_style := "//" }),
    ("rust",
     { name := "Rust", extensions := [".rs"], test_framework := "cargo test",
       test_file_prefix := "",
       import_style := "use \x7bmodule\x7d::\x7bfunction\x7d;",
       comment_style := "//" }),
    ("cpp",
     { name := "C++", extensions := [".cpp", ".cc", ".cxx", ".hpp", ".h"],
       test_framework := "googletest", test_file_prefix := "",
       import_style := "#include \"\x7bmodule\x7d.h\"",
       comment_style := "//" }) ]

/-- `pathlib.Path(p).name`: the final path component (empty for `.`/`..`,
trailing slashes ignored). -/
def pyPathName (p : String) : String :=
  let trimmed := (p.data.reverse.dropWhile (fun c => c == '/')).reverse
  let nm := (trimmed.reverse.takeWhile (fun c => !(c == '/'))).reverse
  if nm = ['.'] ∨ nm = ['.', '.'] then "" else String.mk nm

/-- `pathlib.Path(p).suffix`: the final `.`-led extension of the name, empty
when the name has no interior dot (leading or trailing dots do not count). -/
def pySuffix (p : String) : String :=
  let nm := (pyPathName p).data
  match nm.reverse.findIdx? (fun c => c == '.') with
  | none => ""
  | some rIdx =>
    let idx := nm.length - 1 - rIdx
    if idx == 0 || idx == nm.length - 1 then "" else String.mk (nm.drop idx)

/-- `language_detector.get_module_name`: `pathlib.Path(p).stem`, the name
with its suffix removed. -/
def get_module_name (p : String) : String :=
  let nm := pyPathName p
  String.mk (nm.data.take (nm.data.length - (pySuffix p).data.length))

/-- `language_detector.detect_language`, reduced to the language key: scan
`LANGUAGE_CONFIGS` in insertion order for one whose extension list contains
the lowercased suffix; `none` models the `(None, None)` result. -/
def detect_language (file_path : String) : Option String :=
  let ext := pyLower (pySuffix file_path)
  (LANGUAGE_CONFIGS.find? (fun kc => kc.2.extensions.contains ext)).map (fun kc => kc.1)

/-- The regex-based extractors of `UniversalFunctionExtractor` (lines
59-289): each scans with `re.finditer` and assembles dictionaries from match
groups and line slices — no raise statement and no failing operation occurs
in them, so for the failure-behaviour claims they are represented by which
extractor runs.  (JavaScript and TypeScript share `_extract_javascript`.) -/
inductive RegexExtractor where
  | javascriptE | javaE | csharpE | goE | rubyE | phpE | rustE | cppE | genericE
deriving DecidableEq, Repr

/-- Result of `UniversalFunctionExtractor.extract`: Python sources go
through `get_functions_from_file`; every other supported language runs a
total regex extractor. -/
inductive ExtractOutcome where
  | pythonFunctions (records : List FuncRecord)
  | regexExtraction (e : RegexExtractor)
deriving Repr

/-- `UniversalFunctionExtractor.extract` (lines 22-52): raises `ValueError`
when language detection failed, dispatches on the detected language
otherwise.  `pySource` is the `ast.parse` outcome of the file's content,
consulted only on the Python path (where a `SyntaxError` from
`get_functions_from_file` propagates). -/
def UniversalFunctionExtractor.extract (file_path : String)
    (pySource : Option PyModule) : Except String ExtractOutcome :=
  match detect_language file_path with
  | none => .error ("ValueError: Unsupported file type: " ++ file_path)
  | some lang =>
    if lang == "python" then
      (get_functions_from_file pySource).map .pythonFunctions
    else if lang == "javascript" || lang == "typescript" then
      .ok (.regexExtraction .javascriptE)
    else if lang == "java" then .ok (.regexExtraction .javaE)
    else if lang == "csharp" then .ok (.regexExtraction .csharpE)
    else if lang == "go" then .ok (.regexExtraction .goE)
    else if lang == "ruby" then .ok (.regexExtraction .rubyE)
    else if lang == "php" then .ok (.regexExtraction .phpE)
    else if lang == "rust" then .ok (.regexExtraction .rustE)
    else if lang == "cpp" then .ok (.regexExtraction .cppE)
    else .ok (.regexExtraction .genericE)

/-- C3 counterexample: extraction does raise.  For the unsupported extension
`notes.txt`, `UniversalFunctionExtractor.extract` raises `ValueError`
instead of returning a default, and for a Python file whose source does not
parse, `get_functions_from_file` propagates `SyntaxError` — refuting "never
raise, for every input file". -/
theorem claim3_counterexample :
    detect_language "notes.txt" = none ∧
    (∀ src : Option PyModule, UniversalFunctionExtractor.extract "notes.txt" src =
      .error "ValueError: Unsupported file type: notes.txt") ∧
    detect_language "bad.py" = some "python" ∧
    UniversalFunctionExtractor.extract "bad.py" none = .error "SyntaxError" := by
  exact ⟨rfl, fun src => rfl, rfl, rfl⟩

/-- C3 (amended): `UniversalFunctionExtractor.extract` succeeds exactly when
the extension is supported and, on the Python path, the source parses:
it raises `ValueError` for every unsupported extension and propagates
`SyntaxError` for an unparseable Python file, while all other language
paths and all the internal analysis helpers return defaults instead of
raising. -/
theorem claim3_amended_failure_semantics (file_path : String) (src : Option PyModule) :
    (UniversalFunctionExtractor.extract file_path src).isOk = true ↔
      (detect_language file_path ≠ none ∧
        (detect_language file_path = some "python" → src ≠ none)) := by
  unfold UniversalFunctionExtractor.extract
  cases h : detect_language file_path with
  | none => simp [Except.isOk, Except.toBool]
  | some lang =>
    by_cases hp : lang == "python"
    · have : lang = "python" := by simpa using hp
      subst this
      cases src with
      | none => simp [get_functions_from_file, Except.map, Except.isOk, Except.toBool]
      | some m => simp [get_functions_from_file, Except.map, Except.isOk, Except.toBool]
    · have hne : lang ≠ "python" := by simpa using hp
      simp only [hp, Bool.false_eq_true, if_false]
      constructor
      · intro _
        exact ⟨by simp, fun hcontra => absurd (by injection hcontra) hne⟩
      · intro _
        repeat' split
        all_goals simp [Except.isOk, Except.toBool]

def c4fiA : FunctionInfo :=
  { func_name := "f", qualified_name := "f", func_source := none }

def c4fiB : FunctionInfo :=
  { func_name := "f", qualified_name := "f", func_source := none,
    class_name := some "C", is_async := true, extras := [("provider", "llm")] }

theorem claim4_witness :
    c4fiA.is_async ≠ c4fiB.is_async ∧
    [c4fiA].map scenarioInputs = [c4fiB].map scenarioInputs ∧
    generate_scenarios_for_functions [c4fiA] = generate_scenarios_for_functions [c4fiB] :=
  ⟨by decide, rfl, claim4_deterministic_pure [c4fiA] [c4fiB] rfl⟩

/-- The test generator classes of `language_test_generators.py`, one
constructor per concrete subclass of `LanguageTestGenerator`. -/
inductive TestGeneratorKind where
  | pythonGen | javascriptGen | typescriptGen | cppGen | javaGen | goGen
deriving DecidableEq, Repr

/-- `get_test_generator`: dictionary lookup with a `PythonTestGenerator`
default for every unknown key. -/
def get_test_generator (language : String) : TestGeneratorKind :=
  let generators : List (String × TestGeneratorKind) :=
    [("python", .pythonGen), ("javascript", .javascriptGen),
     ("typescript", .typescriptGen), ("cpp", .cppGen),
     ("java", .javaGen), ("go", .goGen)]
  ((generators.find? (fun kv => kv.1 == language)).map (fun kv => kv.2)).getD .pythonGen

/-- C10: `get_test_generator` is total and silently defaults — it returns
the language-specific generator for exactly the six known keys and the
pytest-style `PythonTestGenerator` for every other string. -/
theorem claim10_get_test_generator_total_default :
    get_test_generator "python" = .pythonGen ∧
    get_test_generator "javascript" = .javascriptGen ∧
    get_test_generator "typescript" = .typescriptGen ∧
    get_test_generator "cpp" = .cppGen ∧
    get_test_generator "java" = .javaGen ∧
    get_test_generator "go" = .goGen ∧
    ∀ s : String,
      s ∉ ["python", "javascript", "typescript", "cpp", "java", "go"] →
      get_test_generator s = .pythonGen := by
  refine ⟨rfl, rfl, rfl, rfl, rfl, rfl, ?_⟩
  intro s hs
  simp only [List.mem_cons, List.not_mem_nil, or_false, not_or] at hs
  obtain ⟨h1, h2, h3, h4, h5, h6⟩ := hs
  have b1 : ("python" == s) = false := beq_eq_false_iff_ne.mpr (Ne.symm h1)
  have b2 : ("javascript" == s) = false := beq_eq_false_iff_ne.mpr (Ne.symm h2)
  have b3 : ("typescript" == s) = false := beq_eq_false_iff_ne.mpr (Ne.symm h3)
  have b4 : ("cpp" == s) = false := beq_eq_false_iff_ne.mpr (Ne.symm h4)
  have b5 : ("java" == s) = false := beq_eq_false_iff_ne.mpr (Ne.symm h5)
  have b6 : ("go" == s) = false := beq_eq_false_iff_ne.mpr (Ne.symm h6)
  simp [get_test_generator, List.find?, b1, b2, b3, b4, b5, b6]

theorem claim10_witness :
    ("csharp" ∉ ["python", "javascript", "typescript", "cpp", "java", "go"]) ∧
    get_test_generator "csharp" = .pythonGen := by
  refine ⟨by decide, claim10_get_test_generator_total_default.2.2.2.2.2.2 "csharp" (by decide)⟩

/-- The floor of a rational as a computable function (`Rat.floor`; it agrees
with `Int.floor`, see `pyFloor_eq`, but reduces inside the kernel so that
concrete rounding computations can be checked by `decide`). -/
def pyFloor (q : ℚ) : ℤ :=
  Rat.floor q

theorem pyFloor_eq (q : ℚ) : pyFloor q = ⌊q⌋ := by
  rw [pyFloor, Rat.floor_def', Rat.floor_def]

/-- Python `round(q, 0)`-style rounding of an exact rational to an integer:
round half to even, as CPython's `round` does (the scripts' float values are
idealised as exact rationals).  Away from exact halves this is `⌊q + 1/2⌋`,
that is, `round`. -/
def roundHalfEven (q : ℚ) : ℤ :=
  if q - pyFloor q = 1 / 2 then (if pyFloor q % 2 = 0 then pyFloor q else pyFloor q + 1)
  else pyFloor (q + 1 / 2)

/-- Python `round(q, 2)`. -/
def pyRound2 (q : ℚ) : ℚ :=
  (roundHalfEven (q * 100) : ℚ) / 100

theorem roundHalfEven_nonneg (q : ℚ) (h : 0 ≤ q) : 0 ≤ roundHalfEven q := by
  unfold roundHalfEven
  simp only [pyFloor_eq]
  split
  · split
    · exact Int.floor_nonneg.mpr h
    · have := Int.floor_nonneg.mpr h
      omega
  · have h2 : (0 : ℚ) ≤ q + 1 / 2 := by linarith
    exact Int.floor_nonneg.mpr h2

theorem roundHalfEven_le (q : ℚ) (n : ℤ) (h : q ≤ n) : roundHalfEven q ≤ n := by
  unfold roundHalfEven
  simp only [pyFloor_eq]
  have hfl : ⌊q⌋ ≤ n := by
    have := Int.floor_le_floor h
    rwa [Int.floor_intCast] at this
  split
  · rename_i hhalf
    split
    · exact hfl
    · by_contra hcon
      have hq : ⌊q⌋ = n := by omega
      rw [hq] at hhalf
      have hq2 : q = n + 1 / 2 := by linarith
      rw [hq2] at h
      linarith
  · have h3 : q + 1 / 2 ≤ n + 1 / 2 := by linarith
    calc ⌊q + 1 / 2⌋ ≤ ⌊(n : ℚ) + 1 / 2⌋ := Int.floor_le_floor h3
      _ = n + ⌊(1 : ℚ) / 2⌋ := Int.floor_int_add n (1 / 2)
      _ = n := by norm_num

theorem pyRound2_nonneg (q : ℚ) (h : 0 ≤ q) : 0 ≤ pyRound2 q := by
  unfold pyRound2
  have h1 : (0 : ℤ) ≤ roundHalfEven (q * 100) := roundHalfEven_nonneg _ (by positivity)
  have h2 : (0 : ℚ) ≤ (roundHalfEven (q * 100) : ℚ) := by exact_mod_cast h1
  linarith

theorem roundHalfEven_intCast (n : ℤ) : roundHalfEven (n : ℚ) = n := by
  have hhalf : ⌊(1 : ℚ) / 2⌋ = 0 := by
    rw [Int.floor_eq_zero_iff]
    constructor <;> norm_num
  unfold roundHalfEven
  simp only [pyFloor_eq, Int.floor_intCast]
  rw [if_neg (by norm_num), Int.floor_int_add, hhalf]
  omega

theorem pyRound2_intCast (n : ℤ) : pyRound2 (n : ℚ) = n := by
  unfold pyRound2
  rw [show ((n : ℚ) * 100) = ((n * 100 : ℤ) : ℚ) by push_cast; ring]
  rw [roundHalfEven_intCast]
  push_cast
  ring

theorem pyRound2_le_100 (q : ℚ) (h : q ≤ 100) : pyRound2 q ≤ 100 := by
  unfold pyRound2
  have h1 : roundHalfEven (q * 100) ≤ (10000 : ℤ) :=
    roundHalfEven_le _ 10000 (by push_cast; linarith)
  have h2 : (roundHalfEven (q * 100) : ℚ) ≤ 10000 := by exact_mod_cast h1
  linarith

/-- The `elements` dictionary of
`CoverageAnalyzer._extract_testable_elements`: Python builds `all` as a
`set`, modelled as a `Finset`.  `assertions` is initialised and never
updated, as in the source. -/
structure TestableElements where
  all : Finset String
  branches : Nat
  loops : Nat
  exceptions : Nat
  returns : Nat
  assertions : Nat

/-- The zero-initialised `elements` dictionary. -/
def initElements : TestableElements :=
  { all := ∅, branches := 0, loops := 0, exceptions := 0, returns := 0, assertions := 0 }

/-- One iteration of the `for node in ast.walk(tree)` loop of
`_extract_testable_elements` (`isinstance` chain with `elif`): counters are
incremented first, and the element name uses the incremented counter; a try
block is named with the current size of `all`. -/
def elemStep (e : TestableElements) (s : PyStmt) : TestableElements :=
  match s with
  | .ifStmt _ _ =>
    let b := e.branches + 1
    { e with branches := b, all := insert (s!"if_statement_{b}") e.all }
  | .forStmt _ _ =>
    let l := e.loops + 1
    { e with loops := l, all := insert (s!"loop_{l}") e.all }
  | .whileStmt _ _ =>
    let l := e.loops + 1
    { e with loops := l, all := insert (s!"loop_{l}") e.all }
  | .raiseStmt _ =>
    let x := e.exceptions + 1
    { e with exceptions := x, all := insert (s!"exception_{x}") e.all }
  | .tryStmt _ _ _ _ =>
    let n := e.all.card
    { e with all := insert (s!"try_block_{n}") e.all }
  | .returnStmt _ =>
    let r := e.returns + 1
    { e with returns := r, all := insert (s!"return_{r}") e.all }
  | _ => e

/-- `CoverageAnalyzer._extract_testable_elements` for the Python analyzer:
parse failure (or the falsy empty source) yields the zero-initialised
dictionary, otherwise the `ast.walk` loop fills it.  (For non-Python
analyzers the source counts `if(`/`for(`/`while(`/`throw`/`return` tokens
with regexes instead and never raises; the claims below that quantify over
elements dictionaries cover that path as well.) -/
def extract_testable_elements (src : Option PyModule) : TestableElements :=
  match src with
  | none => initElements
  | some m => (walkModule m).foldl elemStep initElements

/-- The repeated Python block
`if cond: for elem in elements['all']: if needle in elem: covered.add(elem)`
of `_map_scenarios_to_coverage`. -/
def coverAdd (all covered : Finset String) (cond : Bool) (needle : String) :
    Finset String :=
  if cond then covered ∪ all.filter (fun e => strContains e needle = true) else covered

/-- One iteration of the scenario loop of `_map_scenarios_to_coverage`: the
four guarded element sweeps in source order, then the `basic_execution`
pseudo-element for happy/normal scenarios. -/
def coveredStep (all : Finset String) (covered : Finset String) (s : Scenario) :
    Finset String :=
  let c4 :=
    coverAdd all
      (coverAdd all
        (coverAdd all
          (coverAdd all covered
            (s.category == "exception" || strContains s.test_type "exception")
            "exception")
          (strContains s.test_type "branch" || strContains s.test_type "conditional")
          "if_statement")
        (strContains s.test_type "loop" || strContains s.test_type "iteration")
        "loop")
      (s.category == "happy_path" || s.category == "edge_case" ||
        s.category == "validation")
      "return"
  if strContains s.scenario_name "normal" || strContains s.category "happy" then
    insert "basic_execution" c4 else c4

/-- `CoverageAnalyzer._map_scenarios_to_coverage`. -/
def map_scenarios_to_coverage (scens : List Scenario) (elements : TestableElements) :
    Finset String :=
  scens.foldl (coveredStep elements.all) ∅

/-- `CoverageAnalyzer._count_covered_branches`: branch-flavoured plus
exception scenarios, clamped by `min` to the branch count. -/
def count_covered_branches (scens : List Scenario) (elements : TestableElements) : Nat :=
  let branch_scenarios := scens.filter (fun s =>
    strContains s.test_type "branch" ||
    strContains (pyLower s.description) "conditional" ||
    s.category == "logic")
  let exception_scenarios := scens.filter (fun s => s.category == "exception")
  min (branch_scenarios.length + exception_scenarios.length) elements.branches

/-- `CoverageAnalyzer._estimate_path_coverage`: the number of distinct
scenario categories. -/
def estimate_path_coverage (scens : List Scenario) : Nat :=
  (scens.map Scenario.category).toFinset.card

/-- The dictionary `analyze_function_coverage` returns (the `details`
sub-dictionary is flattened into the last six fields).  `uncovered_elements`
is materialised by Python as `list(set-difference)`, whose iteration order
is unspecified, so it is carried as the set itself. -/
structure FunctionCoverage where
  function : String
  total_testable_elements : Nat
  covered_elements : Nat
  coverage_percentage : ℚ
  uncovered_elements : Finset String
  covered_branches : Nat
  total_branches : Nat
  covered_paths : Nat
  has_error_handling : Bool
  error_handling_tested : Bool
  has_loops : Bool
  loops_tested : Bool
  has_conditionals : Bool
  conditionals_tested : Bool

/-- `CoverageAnalyzer.analyze_function_coverage` (Python analyzer). -/
def analyze_function_coverage (fi : FunctionInfo) (scens : List Scenario) :
    FunctionCoverage :=
  let elements := extract_testable_elements fi.func_source
  let covered := map_scenarios_to_coverage scens elements
  let total_elements := elements.all.card
  let covered_count := covered.card
  let coverage_percent : ℚ :=
    if 0 < total_elements then (covered_count : ℚ) / total_elements * 100 else 0
  { function := fi.func_name,
    total_testable_elements := total_elements,
    covered_elements := covered_count,
    coverage_percentage := pyRound2 coverage_percent,
    uncovered_elements := elements.all \ covered,
    covered_branches := count_covered_branches scens elements,
    total_branches := elements.branches,
    covered_paths := estimate_path_coverage scens,
    has_error_handling := decide (0 < elements.exceptions),
    error_handling_tested := scens.any (fun s => s.category == "exception"),
    has_loops := decide (0 < elements.loops),
    loops_tested := scens.any (fun s => strContains s.test_type "loop"),
    has_conditionals := decide (0 < elements.branches),
    conditionals_tested := scens.any (fun s => strContains s.test_type "branch") }

/-- `d.get(k, default)` on an insertion-ordered association list. -/
def dictGetD {α : Type} (d : List (String × α)) (k : String) (dflt : α) : α :=
  ((d.find? (fun kv => kv.1 == k)).map (fun kv => kv.2)).getD dflt

/-- The `summary` part of the report of `generate_coverage_report`. -/
structure CoverageSummary where
  average_coverage : ℚ
  total_functions : Nat
  total_testable_elements : Nat
  covered_elements : Nat
  total_branches : Nat
  covered_branches : Nat
  branch_coverage : ℚ

/-- The report of `generate_coverage_report`.  The `recommendations` entry
is a list of presentation strings whose contents depend on Python set
iteration order (`uncovered_elements[:3]`) and is not modelled. -/
structure CoverageReport where
  summary : CoverageSummary
  functions : List FunctionCoverage

/-- `CoverageAnalyzer.generate_coverage_report` (Python analyzer). -/
def generate_coverage_report (functions : List FunctionInfo)
    (all_scenarios : List (String × List Scenario)) : CoverageReport :=
  let function_coverage := functions.map (fun fi =>
    analyze_function_coverage fi (dictGetD all_scenarios fi.qualified_name []))
  let total_coverage : ℚ := (function_coverage.map (fun f => f.coverage_percentage)).sum
  let avg_coverage : ℚ :=
    if functions.isEmpty then 0 else total_coverage / (functions.length : ℚ)
  let total_elements := (function_coverage.map (fun f => f.total_testable_elements)).sum
  let covered_elements := (function_coverage.map (fun f => f.covered_elements)).sum
  let total_branches := (function_coverage.map (fun f => f.total_branches)).sum
  let covered_branches := (function_coverage.map (fun f => f.covered_branches)).sum
  { summary :=
    { average_coverage := pyRound2 avg_coverage,
      total_functions := functions.length,
      total_testable_elements := total_elements,
      covered_elements := covered_elements,
      total_branches := total_branches,
      covered_branches := covered_branches,
      branch_coverage := pyRound2 (if 0 < total_branches then
        (covered_branches : ℚ) / (total_branches : ℚ) * 100 else 0) },
    functions := function_coverage }

theorem coverAdd_subset (all c : Finset String) (cond : Bool) (needle : String)
    (hc : c ⊆ insert "basic_execution" all) :
    coverAdd all c cond needle ⊆ insert "basic_execution" all := by
  unfold coverAdd
  split
  · exact Finset.union_subset hc
      ((Finset.filter_subset _ all).trans (Finset.subset_insert _ _))
  · exact hc

theorem coveredStep_subset (all c : Finset String) (s : Scenario)
    (hc : c ⊆ insert "basic_execution" all) :
    coveredStep all c s ⊆ insert "basic_execution" all := by
  unfold coveredStep
  have h1 := coverAdd_subset all c
    (s.category == "exception" || strContains s.test_type "exception") "exception" hc
  have h2 := coverAdd_subset all _
    (strContains s.test_type "branch" || strContains s.test_type "conditional")
    "if_statement" h1
  have h3 := coverAdd_subset all _
    (strContains s.test_type "loop" || strContains s.test_type "iteration") "loop" h2
  have h4 := coverAdd_subset all _
    (s.category == "happy_path" || s.category == "edge_case" ||
      s.category == "validation") "return" h3
  split
  · exact Finset.insert_subset_iff.mpr ⟨Finset.mem_insert_self _ _, h4⟩
  · exact h4

theorem map_scenarios_subset (scens : List Scenario) (elements : TestableElements) :
    map_scenarios_to_coverage scens elements ⊆
      insert "basic_execution" elements.all := by
  unfold map_scenarios_to_coverage
  have haux : ∀ (l : List Scenario) (c : Finset String),
      c ⊆ insert "basic_execution" elements.all →
      l.foldl (coveredStep elements.all) c ⊆ insert "basic_execution" elements.all := by
    intro l
    induction l with
    | nil => intro c hc; simpa using hc
    | cons s rest ih =>
      intro c hc
      exact ih (coveredStep elements.all c s) (coveredStep_subset _ _ _ hc)
  exact haux scens ∅ (Finset.empty_subset _)

theorem covered_card_le (scens : List Scenario) (elements : TestableElements) :
    (map_scenarios_to_coverage scens elements).card ≤ elements.all.card + 1 :=
  le_trans (Finset.card_le_card (map_scenarios_subset scens elements))
    (Finset.card_insert_le _ _)

def c7Fi : FunctionInfo :=
  { func_name := "g", qualified_name := "g",
    func_source := some { body := [ .functionDef false "g" [] none
      [ .returnStmt (some (.constant "int")) ] ] } }

def c7Scens : List Scenario :=
  [{ scenario_name := "test_normal_execution",
     description := "Test g with valid inputs",
     category := "happy_path", test_type := "functional" }]

/-- C7 counterexample: the reported `coverage_percentage` is not bounded by
100.  For `def g(): return 1` with the single happy-path scenario, the only
testable element is `return_1`, but the covered set also receives the
pseudo-element `basic_execution`, so the percentage is `2/1*100 = 200`. -/
theorem claim7_counterexample :
    (analyze_function_coverage c7Fi c7Scens).total_testable_elements = 1 ∧
    (analyze_function_coverage c7Fi c7Scens).covered_elements = 2 ∧
    (analyze_function_coverage c7Fi c7Scens).coverage_percentage = 200 ∧
    ¬((analyze_function_coverage c7Fi c7Scens).coverage_percentage ≤ 100) := by
  have h200 : (analyze_function_coverage c7Fi c7Scens).coverage_percentage = 200 := by
    simp only [analyze_function_coverage]
    rw [if_pos (by decide)]
    rw [show (map_scenarios_to_coverage c7Scens
      (extract_testable_elements c7Fi.func_source)).card = 2 from rfl]
    rw [show (extract_testable_elements c7Fi.func_source).all.card = 1 from rfl]
    rw [show ((2 : ℕ) : ℚ) / ((1 : ℕ) : ℚ) * 100 = ((200 : ℤ) : ℚ) by norm_num]
    rw [pyRound2_intCast]
    norm_num
  refine ⟨rfl, rfl, h200, ?_⟩
  rw [h200]
  norm_num

/-- C7 (amended): `coverage_percentage` equals
`round(covered_elements / total_testable_elements * 100, 2)` when the
element count is positive and `0` when it is zero, where the testable
elements are the if statements, loops, raise statements, try blocks and
return statements of the parsed source; the percentage is always
non-negative, but `covered_elements` can exceed `total_testable_elements`
by one (the `basic_execution` pseudo-element), so 100 is not an upper
bound — the percentage can reach 200. -/
theorem claim7_amended_coverage_formula (fi : FunctionInfo) (scens : List Scenario) :
    (analyze_function_coverage fi scens).total_testable_elements =
      (extract_testable_elements fi.func_source).all.card ∧
    (0 < (analyze_function_coverage fi scens).total_testable_elements →
      (analyze_function_coverage fi scens).coverage_percentage =
        pyRound2 (((analyze_function_coverage fi scens).covered_elements : ℚ) /
          ((analyze_function_coverage fi scens).total_testable_elements : ℚ) * 100)) ∧
    ((analyze_function_coverage fi scens).total_testable_elements = 0 →
      (analyze_function_coverage fi scens).coverage_percentage = 0) ∧
    0 ≤ (analyze_function_coverage fi scens).coverage_percentage ∧
    (analyze_function_coverage fi scens).covered_elements ≤
      (analyze_function_coverage fi scens).total_testable_elements + 1 := by
  refine ⟨rfl, ?_, ?_, ?_, ?_⟩
  · intro h
    simp only [analyze_function_coverage] at h ⊢
    rw [if_pos h]
  · intro h
    simp only [analyze_function_coverage] at h ⊢
    rw [if_neg (by omega)]
    rw [show (0 : ℚ) = ((0 : ℤ) : ℚ) by norm_num, pyRound2_intCast]
  · apply pyRound2_nonneg
    split
    · positivity
    · exact le_rfl
  · simp only [analyze_function_coverage]
    exact covered_card_le scens (extract_testable_elements fi.func_source)

theorem claim7_witness :
    0 < (analyze_function_coverage c7Fi c7Scens).total_testable_elements ∧
    (analyze_function_coverage c7Fi c7Scens).coverage_percentage =
      pyRound2 (((analyze_function_coverage c7Fi c7Scens).covered_elements : ℚ) /
        ((analyze_function_coverage c7Fi c7Scens).total_testable_elements : ℚ) * 100) :=
  ⟨by decide, (claim7_amended_coverage_formula c7Fi c7Scens).2.1 (by decide)⟩

/-- C9: `_count_covered_branches` is always clamped into
`[0, total_branches]` (the count is a natural number, so the lower bound is
by type), and consequently the summary `branch_coverage` of
`generate_coverage_report` always lies between 0 and 100. -/
theorem claim9_branch_coverage_bounds :
    (∀ (scens : List Scenario) (elements : TestableElements),
      count_covered_branches scens elements ≤ elements.branches) ∧
    ∀ (functions : List FunctionInfo)
      (all_scenarios : List (String × List Scenario)),
      0 ≤ (generate_coverage_report functions all_scenarios).summary.branch_coverage ∧
      (generate_coverage_report functions all_scenarios).summary.branch_coverage ≤ 100 := by
  have hcount : ∀ (scens : List Scenario) (elements : TestableElements),
      count_covered_branches scens elements ≤ elements.branches :=
    fun scens elements => Nat.min_le_right _ _
  refine ⟨hcount, fun functions all_scenarios => ?_⟩
  simp only [generate_coverage_report]
  set fcov := functions.map (fun fi =>
    analyze_function_coverage fi (dictGetD all_scenarios fi.qualified_name [])) with hfcov
  have hle : (fcov.map (fun f => f.covered_branches)).sum ≤
      (fcov.map (fun f => f.total_branches)).sum := by
    apply List.sum_le_sum
    intro x hx
    rw [hfcov] at hx
    obtain ⟨fi, _, rfl⟩ := List.mem_map.mp hx
    exact hcount _ _
  constructor
  · apply pyRound2_nonneg
    split
    · positivity
    · exact le_rfl
  · apply pyRound2_le_100
    split
    · rename_i hpos
      have hposQ : (0 : ℚ) < (((fcov.map (fun f => f.total_branches)).sum : ℕ) : ℚ) := by
        exact_mod_cast hpos
      have hleQ : (((fcov.map (fun f => f.covered_branches)).sum : ℕ) : ℚ) ≤
          (((fcov.map (fun f => f.total_branches)).sum : ℕ) : ℚ) := by
        exact_mod_cast hle
      rw [div_mul_eq_mul_div, div_le_iff₀ hposQ]
      nlinarith [hleQ]
    · norm_num

/-- Python `str.capitalize` for ASCII text: first character uppercased, the
rest lowercased. -/
def pyCapitalize (s : String) : String :=
  match s.data with
  | [] => ""
  | c :: rest => String.mk (c.toUpper :: rest.map Char.toLower)

/-- Helper for `pyTitle`: tracks whether the previous character was a
letter. -/
def pyTitleAux : Bool → List Char → List Char
  | _, [] => []
  | prevAlpha, c :: rest =>
    (if c.isAlpha then (if prevAlpha then c.toLower else c.toUpper) else c) ::
      pyTitleAux c.isAlpha rest

/-- Python `str.title` for ASCII text: each letter run starts uppercase and
continues lowercase. -/
def pyTitle (s : String) : String :=
  String.mk (pyTitleAux false s.data)

/-- `"".join(word.capitalize() for word in name.split("_"))`, the
snake-case-to-PascalCase conversion of the C++ and Go generators. -/
def pascalCase (name : String) : String :=
  String.join ((name.splitOn "_").map pyCapitalize)

/-- A Python value stored in a `custom_values` dictionary (the generator
only distinguishes strings from everything else, which it renders with
`str(value)`). -/
inductive PyValue where
  | vStr (s : String)
  | vInt (n : Int)
  | vBool (b : Bool)
  | vNone
deriving DecidableEq, Repr

/-- Python `str(value)` for the modelled values. -/
def pyStr : PyValue → String
  | .vStr s => s
  | .vInt n => toString n
  | .vBool true => "True"
  | .vBool false => "False"
  | .vNone => "None"

/-- `k in d` / `d[k]` on an insertion-ordered association list. -/
def dictFind {α : Type} (d : List (String × α)) (k : String) : Option α :=
  (d.find? (fun kv => kv.1 == k)).map (fun kv => kv.2)

/-- `PythonTestGenerator.generate_test_function`
(`language_test_generators.py`): the pytest text used when a non-Python
language key resolves to the default generator. -/
def pythonGenTestFunction (func_name : String) (scenario : Scenario)
    (test_args : List String) (is_exception : Bool) : String :=
  let test_name := scenario.scenario_name
  let description := scenario.description
  let args_str := String.intercalate ", " test_args
  let lines := ["def " ++ test_name ++ "():", "    \"\"\"", "    " ++ description, "    \"\"\""]
  let lines := lines ++
    (if is_exception then
      ["    with pytest.raises(ValueError):", "        " ++ func_name ++ "(" ++ args_str ++ ")"]
    else
      ["    result = " ++ func_name ++ "(" ++ args_str ++ ")", "    assert result is not None"])
  String.intercalate "\n" lines

/-- `JavaScriptTestGenerator.generate_test_function` (the TypeScript
generator's method body is character-identical). -/
def jsTestFunction (func_name : String) (scenario : Scenario)
    (test_args : List String) (is_exception : Bool) : String :=
  let description := scenario.description
  let args_str := String.intercalate ", " test_args
  if is_exception then
    "  it('" ++ description ++ "', () => \x7b\n    expect(() => \x7b\n      " ++
      func_name ++ "(" ++ args_str ++ ");\n    \x7d).toThrow();\n  \x7d);"
  else
    "  it('" ++ description ++ "', () => \x7b\n    const result = " ++
      func_name ++ "(" ++ args_str ++ ");\n    expect(result).toBeDefined();\n  \x7d);"

/-- `CppTestGenerator.generate_test_function`. -/
def cppTestFunction (func_name : String) (scenario : Scenario)
    (test_args : List String) (is_exception : Bool) : String :=
  let test_class := pascalCase scenario.scenario_name
  let description := scenario.description
  let args_str := String.intercalate ", " test_args
  if is_exception then
    "TEST(" ++ func_name ++ "Test, " ++ test_class ++ ") \x7b\n  // " ++ description ++
      "\n  EXPECT_THROW(\x7b\n    " ++ func_name ++ "(" ++ args_str ++
      ");\n  \x7d, std::exception);\n\x7d"
  else
    "TEST(" ++ func_name ++ "Test, " ++ test_class ++ ") \x7b\n  // " ++ description ++
      "\n  auto result = " ++ func_name ++ "(" ++ args_str ++
      ");\n  EXPECT_TRUE(result != 0 || result == 0); // Basic check\n\x7d"

/-- `JavaTestGenerator.generate_test_function`: the camel-case conversion
indexes `test_method[0]`, which raises `IndexError` when the scenario name
consists only of underscores and spaces. -/
def javaTestFunction (func_name : String) (scenario : Scenario)
    (test_args : List String) (is_exception : Bool) : Except String String :=
  let tm := pyReplace (pyTitle (pyReplace scenario.scenario_name "_" " ")) " " ""
  match tm.data with
  | [] => .error "IndexError: string index out of range"
  | c :: rest =>
    let test_method := String.mk (c.toLower :: rest)
    let description := scenario.description
    let args_str := String.intercalate ", " test_args
    if is_exception then
      .ok ("  @Test\n  public void " ++ test_method ++ "() \x7b\n    // " ++ description ++
        "\n    assertThrows(Exception.class, () -> \x7b\n      " ++ func_name ++ "(" ++
        args_str ++ ");\n    \x7d);\n  \x7d")
    else
      .ok ("  @Test\n  public void " ++ test_method ++ "() \x7b\n    // " ++ description ++
        "\n    var result = " ++ func_name ++ "(" ++ args_str ++
        ");\n    assertNotNull(result);\n  \x7d")

/-- `GoTestGenerator.generate_test_function` (it ignores `is_exception`). -/
def goTestFunction (func_name : String) (scenario : Scenario)
    (test_args : List String) : String :=
  let test_func := "Test" ++ pascalCase scenario.scenario_name
  let description := scenario.description
  let args_str := String.intercalate ", " test_args
  "func " ++ test_func ++ "(t *testing.T) \x7b\n  // " ++ description ++
    "\n  result := " ++ func_name ++ "(" ++ args_str ++
    ")\n  if result == nil \x7b\n    t.Error(\"Expected non-nil result\")\n  \x7d\n\x7d"

/-- Dispatch of `generator.generate_test_function` over the concrete
generator classes. -/
def langGenerateTestFunction (k : TestGeneratorKind) (func_name : String)
    (scenario : Scenario) (test_args : List String) (is_exception : Bool) :
    Except String String :=
  match k with
  | .pythonGen => .ok (pythonGenTestFunction func_name scenario test_args is_exception)
  | .javascriptGen => .ok (jsTestFunction func_name scenario test_args is_exception)
  | .typescriptGen => .ok (jsTestFunction func_name scenario test_args is_exception)
  | .cppGen => .ok (cppTestFunction func_name scenario test_args is_exception)
  | .javaGen => javaTestFunction func_name scenario test_args is_exception
  | .goGen => .ok (goTestFunction func_name scenario test_args)

/-- Dispatch of `generator.generate_file_header` over the concrete
generator classes. -/
def langGenerateFileHeader (k : TestGeneratorKind) (func_name module_name : String) :
    String :=
  match k with
  | .pythonGen => "import pytest\n\nfrom " ++ module_name ++ " import " ++ func_name
  | .javascriptGen =>
    "const \x7b " ++ func_name ++ " \x7d = require('./" ++ module_name ++
      "');\n\ndescribe('" ++ func_name ++ "', () => \x7b"
  | .typescriptGen =>
    "import \x7b " ++ func_name ++ " \x7d from './" ++ module_name ++
      "';\n\ndescribe('" ++ func_name ++ "', () => \x7b"
  | .cppGen => "#include <gtest/gtest.h>\n#include \"" ++ module_name ++ ".h\"\n"
  | .javaGen =>
    "import org.junit.jupiter.api.Test;\nimport static org.junit.jupiter.api.Assertions.*;\n\npublic class " ++
      pyCapitalize func_name ++ "Test \x7b\n"
  | .goGen => "package " ++ module_name ++ "\n\nimport \"testing\"\n"

/-- `language_detector.get_test_framework_import`. -/
def get_test_framework_import (language : String) : String :=
  dictGetD
    [("python", "import pytest"),
     ("javascript", "const \x7b describe, it, expect \x7d = require('@jest/globals');"),
     ("typescript", "import \x7b describe, it, expect \x7d from '@jest/globals';"),
     ("java", "import org.junit.jupiter.api.Test;\nimport static org.junit.jupiter.api.Assertions.*;"),
     ("csharp", "using NUnit.Framework;"),
     ("go", "import \"testing\""),
     ("ruby", "require 'rspec'"),
     ("php", "use PHPUnit\\Framework\\TestCase;"),
     ("rust", "// Tests use built-in testing framework"),
     ("cpp", "#include <gtest/gtest.h>")]
    language "// TODO: Import test framework"

/-- `language_detector.generate_import_statement`: the class-aware branches
for four languages, falling through to placeholder substitution on the
configured `import_style` otherwise (`class_name` of `None` or the empty
string is falsy and skips the class branch). -/
def generate_import_statement (module_name function_name language : String)
    (class_name : Option String) : String :=
  match dictFind LANGUAGE_CONFIGS language with
  | none => "// TODO: Import " ++ function_name
  | some config =>
    let classImport : Option String :=
      match class_name with
      | some c =>
        if c == "" then none
        else if language == "python" then
          some ("from " ++ module_name ++ " import " ++ c)
        else if language == "javascript" || language == "typescript" then
          some ("import \x7b " ++ c ++ " \x7d from './" ++ module_name ++ "';")
        else if language == "java" then
          some ("import " ++ module_name ++ "." ++ c ++ ";")
        else if language == "csharp" then
          some ("using " ++ module_name ++ ";")
        else none
      | none => none
    match classImport with
    | some s => s
    | none =>
      let s1 := pyReplace config.import_style "\x7bmodule\x7d" module_name
      let s2 := pyReplace s1 "\x7bfunction\x7d" function_name
      let s3 := pyReplace s2 "\x7bpackage\x7d" module_name
      pyReplace s3 "\x7bnamespace\x7d" module_name

/-- The state `TestCodeGenerator.__init__` stores.  Its
`_extract_parameters` is character-identical to `ScenarioGenerator`'s and is
shared (`extract_parameters`); its `_infer_return_type` only unparses the
`returns` annotation (`tcgInferReturnType`), without the walk. -/
structure TestCodeGenerator where
  func_name : String
  qualified_name : String
  class_name : Option String
  is_async : Bool
  func_source : Option PyModule
  scenarios : List Scenario
  source_file_path : Option String
  custom_values : List (String × PyValue)
  language : String
  params : List ParamInfo
  return_type : Option String

/-- `TestCodeGenerator._infer_return_type`: the unparsed `returns`
annotation of `tree.body[0]`, `none` on every caught failure path. -/
def tcgInferReturnType (src : Option PyModule) : Option String :=
  match src with
  | none => none
  | some m =>
    match m.body with
    | [] => none
    | fn :: _ =>
      match fn with
      | .functionDef _ _ _ ret _ => ret
      | _ => none

/-- `TestCodeGenerator.__init__`.  `custom_values or {}` and
`language or "python"` are Python truthiness: `None` and the empty
dictionary/string fall back to the defaults. -/
def TestCodeGenerator.init (fi : FunctionInfo) (scenarios : List Scenario)
    (source_file_path : Option String)
    (custom_values : Option (List (String × PyValue)))
    (language : Option String) : TestCodeGenerator where
  func_name := fi.func_name
  qualified_name := fi.qualified_name
  class_name := fi.class_name
  is_async := fi.is_async
  func_source := fi.func_source
  scenarios := scenarios
  source_file_path := source_file_path
  custom_values := custom_values.getD []
  language :=
    match language with
    | none => "python"
    | some l => if l == "" then "python" else l
  params := extract_parameters fi.func_source
  return_type := tcgInferReturnType fi.func_source

/-- `TestCodeGenerator._generate_test_data`. -/
def generate_test_data (custom_values : List (String × PyValue))
    (param_name : String) (param_type : Option String) (scenario_name : String) :
    String :=
  match dictFind custom_values param_name with
  | some (.vStr s) => "\"" ++ s ++ "\""
  | some v => pyStr v
  | none =>
    let scenario_lower := pyLower scenario_name
    if strContains scenario_lower "zero" then "0"
    else if strContains scenario_lower "negative" then "-1"
    else if strContains scenario_lower "empty_string" || strContains scenario_lower "empty" then
      match param_type with
      | some pt => if strContains (pyLower pt) "str" then "\"\"" else "[]"
      | none => "[]"
    else if strContains scenario_lower "none" then "None"
    else
      match param_type with
      | none => "None"
      | some pt =>
        if pt == "" then "None"
        else
          let t := pyLower pt
          if strContains t "int" then "42"
          else if strContains t "float" then "3.14"
          else if strContains t "str" then "\"test_string\""
          else if strContains t "bool" then "True"
          else if strContains t "list" then "[1, 2, 3]"
          else if strContains t "dict" then "\x7b\"key\": \"value\"\x7d"
          else if strContains t "tuple" then "(1, 2, 3)"
          else "None"

/-- `TestCodeGenerator._generate_assertion`. -/
def generate_assertion (custom_values : List (String × PyValue))
    (return_type : Option String) (scenario : Scenario) : String :=
  let test_type := scenario.test_type
  let scenario_name := scenario.scenario_name
  match dictFind custom_values "expected_result" with
  | some (.vStr s) => "assert result == \"" ++ s ++ "\""
  | some v => "assert result == " ++ pyStr v
  | none =>
    if test_type == "exception" || strContains scenario.category "exception" then
      let exception_type :=
        if strContains scenario_name "type" then "TypeError"
        else if strContains scenario_name "value" then "ValueError"
        else if strContains scenario_name "zero" &&
            strContains (pyLower scenario_name) "division" then "ZeroDivisionError"
        else "ValueError"
      "pytest.raises(" ++ exception_type ++ ")"
    else if test_type == "return_type" then
      match return_type with
      | some rt =>
        if rt == "" then "assert result is not None"
        else
          let t := pyLower rt
          if strContains t "int" then "assert isinstance(result, int)"
          else if strContains t "float" then "assert isinstance(result, float)"
          else if strContains t "str" then "assert isinstance(result, str)"
          else if strContains t "bool" then "assert isinstance(result, bool)"
          else if strContains t "list" then "assert isinstance(result, list)"
          else if strContains t "dict" then "assert isinstance(result, dict)"
          else if strContains t "tuple" then "assert isinstance(result, tuple)"
          else "assert result is not None"
      | none => "assert result is not None"
    else if strContains scenario_name "none" then "assert result is None"
    else if strContains scenario_name "empty" then
      "assert result == [] or result == '' or result == \x7b\x7d"
    else "assert result is not None"

/-- `TestCodeGenerator._generate_test_function`.  `HAS_LANGUAGE_GENERATORS`
is true in this repository (the import succeeds), so a non-Python language
dispatches to the language generators. -/
def tcgGenerateTestFunction (g : TestCodeGenerator) (scenario : Scenario) :
    Except String String :=
  let test_name := scenario.scenario_name
  let description := scenario.description
  let test_type := scenario.test_type
  let test_args := g.params.map (fun p =>
    generate_test_data g.custom_values p.name p.ann test_name)
  if g.language != "python" then
    let generator := get_test_generator g.language
    let is_exception := test_type == "exception" || strContains scenario.category "exception"
    langGenerateTestFunction generator g.func_name scenario test_args is_exception
  else
    let async_keyword := if g.is_async then "async " else ""
    let head := [async_keyword ++ "def " ++ test_name ++ "():", "    \"\"\"",
      "    " ++ description, "    \"\"\""]
    let args_str := String.intercalate ", " test_args
    let body :=
      if test_type == "exception" || strContains scenario.category "exception" then
        let assertion := generate_assertion g.custom_values g.return_type scenario
        ["    with " ++ assertion ++ ":"] ++
        (match g.class_name with
         | some c =>
           ["        obj = " ++ c ++ "()"] ++
           (if g.is_async then ["        await obj." ++ g.func_name ++ "(" ++ args_str ++ ")"]
            else ["        obj." ++ g.func_name ++ "(" ++ args_str ++ ")"])
         | none =>
           if g.is_async then ["        await " ++ g.func_name ++ "(" ++ args_str ++ ")"]
           else ["        " ++ g.func_name ++ "(" ++ args_str ++ ")"])
      else
        (match g.class_name with
         | some c =>
           ["    obj = " ++ c ++ "()"] ++
           (if g.is_async then ["    result = await obj." ++ g.func_name ++ "(" ++ args_str ++ ")"]
            else ["    result = obj." ++ g.func_name ++ "(" ++ args_str ++ ")"])
         | none =>
           if g.is_async then ["    result = await " ++ g.func_name ++ "(" ++ args_str ++ ")"]
           else ["    result = " ++ g.func_name ++ "(" ++ args_str ++ ")"]) ++
        ["    " ++ generate_assertion g.custom_values g.return_type scenario]
    .ok (String.intercalate "\n" (head ++ body))

/-- `TestCodeGenerator._generate_import_statement` (a `source_file_path` of
`None` or the empty string is falsy and yields the TODO comment). -/
def tcgGenerateImportStatement (g : TestCodeGenerator) : String :=
  match g.source_file_path with
  | none =>
    match g.class_name with
    | some c => "# TODO: Import " ++ c
    | none => "# TODO: Import " ++ g.func_name
  | some p =>
    if p == "" then
      match g.class_name with
      | some c => "# TODO: Import " ++ c
      | none => "# TODO: Import " ++ g.func_name
    else
      generate_import_statement (get_module_name p) g.func_name g.language g.class_name

/-- The per-scenario loop of `generate_test_file`: each scenario contributes
its test function text followed by `blanks` empty lines. -/
def testFunctionLines (g : TestCodeGenerator) (blanks : List String) :
    List Scenario → Except String (List String)
  | [] => .ok []
  | s :: rest => do
    let f ← tcgGenerateTestFunction g s
    let tail ← testFunctionLines g blanks rest
    return (f :: blanks) ++ tail

/-- `TestCodeGenerator.generate_test_file`.  `now` is the formatted
`datetime.now().strftime("%Y-%m-%d %H:%M:%S")` reading, passed explicitly:
the produced text embeds it, which is the only non-input dependence. -/
def generate_test_file (g : TestCodeGenerator) (now : String) :
    Except String String := do
  if g.language != "python" then
    let generator := get_test_generator g.language
    let headerLines : List String :=
      if g.language == "cpp" || g.language == "java" || g.language == "go" then
        ["// Unit tests for " ++ g.qualified_name, "// Generated: " ++ now, ""]
      else
        ["\"\"\"", "Unit tests for " ++ g.qualified_name, "Generated: " ++ now,
         "\"\"\"", ""]
    let module_name :=
      match g.source_file_path with
      | some p => if p == "" then "module" else get_module_name p
      | none => "module"
    let header := langGenerateFileHeader generator g.func_name module_name
    let funcLines ← testFunctionLines g [""] g.scenarios
    let closing : List String :=
      if g.language == "javascript" || g.language == "typescript" then ["\x7d);"]
      else if g.language == "java" then ["\x7d"]
      else []
    return String.intercalate "\n" (headerLines ++ [header, ""] ++ funcLines ++ closing)
  else
    let headerLines : List String :=
      ["\"\"\"", "Unit tests for " ++ g.qualified_name, "Generated: " ++ now,
       "Language: " ++ g.language, "\"\"\"", ""]
    let importLines : List String :=
      [get_test_framework_import g.language] ++
      (if g.is_async && g.language == "python" then ["import asyncio"] else []) ++
      [""] ++
      [tcgGenerateImportStatement g, "", ""]
    let funcLines ← testFunctionLines g ["", ""] g.scenarios
    let mainLines : List String :=
      if g.is_async && g.language == "python" then
        ["if __name__ == \"__main__\":", "    pytest.main([__file__])"]
      else []
    return String.intercalate "\n" (headerLines ++ importLines ++ funcLines ++ mainLines)

def c5Gen : TestCodeGenerator :=
  TestCodeGenerator.init
    { func_name := "f", qualified_name := "f", func_source := none }
    [] none none none

/-- C5 counterexample: `generate_test_file` is not a function of the listed
inputs alone — the output embeds `datetime.now()`, so two calls with
identical `function_info`, scenarios, path, custom values and language but
one second apart return different strings. -/
theorem claim5_counterexample :
    generate_test_file c5Gen "2024-01-01 00:00:00" =
      .ok "\"\"\"\nUnit tests for f\nGenerated: 2024-01-01 00:00:00\nLanguage: python\n\"\"\"\n\nimport pytest\n\n# TODO: Import f\n\n" ∧
    generate_test_file c5Gen "2024-01-01 00:00:01" =
      .ok "\"\"\"\nUnit tests for f\nGenerated: 2024-01-01 00:00:01\nLanguage: python\n\"\"\"\n\nimport pytest\n\n# TODO: Import f\n\n" ∧
    generate_test_file c5Gen "2024-01-01 00:00:00" ≠
      generate_test_file c5Gen "2024-01-01 00:00:01" := by
  refine ⟨rfl, rfl, fun h => ?_⟩
  rw [show generate_test_file c5Gen "2024-01-01 00:00:00" =
      Except.ok "\"\"\"\nUnit tests for f\nGenerated: 2024-01-01 00:00:00\nLanguage: python\n\"\"\"\n\nimport pytest\n\n# TODO: Import f\n\n" from rfl,
    show generate_test_file c5Gen "2024-01-01 00:00:01" =
      Except.ok "\"\"\"\nUnit tests for f\nGenerated: 2024-01-01 00:00:01\nLanguage: python\n\"\"\"\n\nimport pytest\n\n# TODO: Import f\n\n" from rfl] at h
  exact absurd (Except.ok.inj h) (by decide)

/-- The `function_info` entries `TestCodeGenerator.__init__` reads. -/
def testGenInputs (fi : FunctionInfo) :
    String × String × Option String × Bool × Option PyModule :=
  (fi.func_name, fi.qualified_name, fi.class_name, fi.is_async, fi.func_source)

/-- C5 (amended): test-code generation is stateless and single-pass — for a
fixed scenario list, source path, custom values, language AND clock reading,
the output of `generate_test_file` is the identical string and depends only
on the five `function_info` entries the generator reads (`func_name`,
`qualified_name`, `class_name`, `is_async`, `func_source`); the clock
reading must be added to the claim's list, because the `Generated:` header
embeds `datetime.now()`. -/
theorem claim5_amended_deterministic (fi1 fi2 : FunctionInfo)
    (scens : List Scenario) (path : Option String)
    (custom : Option (List (String × PyValue))) (lang : Option String)
    (now : String) (h : testGenInputs fi1 = testGenInputs fi2) :
    generate_test_file (TestCodeGenerator.init fi1 scens path custom lang) now =
      generate_test_file (TestCodeGenerator.init fi2 scens path custom lang) now := by
  have hinit : TestCodeGenerator.init fi1 scens path custom lang =
      TestCodeGenerator.init fi2 scens path custom lang := by
    simp only [testGenInputs, Prod.mk.injEq] at h
    obtain ⟨h1, h2, h3, h4, h5⟩ := h
    unfold TestCodeGenerator.init
    rw [h1, h2, h3, h4, h5]
  rw [hinit]

def c5fiA : FunctionInfo :=
  { func_name := "f", qualified_name := "f", func_source := none }

def c5fiB : FunctionInfo :=
  { func_name := "f", qualified_name := "f", func_source := none,
    extras := [("llm_prompt", "unused")] }

theorem claim5_witness :
    testGenInputs c5fiA = testGenInputs c5fiB ∧
    generate_test_file (TestCodeGenerator.init c5fiA [] none none none)
        "2024-01-01 00:00:00" =
      generate_test_file (TestCodeGenerator.init c5fiB [] none none none)
        "2024-01-01 00:00:00" :=
  ⟨rfl, claim5_amended_deterministic c5fiA c5fiB [] none none none
    "2024-01-01 00:00:00" rfl⟩
